import Mathlib

/-!
Verification of the match-ranking core of the spark-proximity repository.

The subject is the SQL stored function `public.find_potential_matches`
(migration 20250825023754) together with `public.calculate_distance`.
The relational state read by the query (the `profiles`, `user_locations`
and `user_interests` tables) is embedded as lists of rows, and the query
is translated stage by stage:

  * `requesterLocation`    — the `user_location` CTE (`... LIMIT 1`);
  * `user_interests_list`  — the `user_interests_list` CTE;
  * `shared_interests_count` — the grouped shared-interest subquery plus
    the `COALESCE(..., 0)`;
  * `candidateLocationJoin` — the `LEFT JOIN public.user_locations ul`;
  * `caseDistance` / `distanceWhereOK` — the distance `CASE` expression
    and the distance condition of the `WHERE` clause, with SQL `NULL`
    rendered as `Option` and the strict NULL-propagation of comparisons
    made explicit;
  * `potential_matches`    — the `potential_matches` CTE (note that the
    source uses `CROSS JOIN user_location`, so an empty requester CTE
    empties the whole result);
  * `retainedMatches` / `rankedMatches` / `find_potential_matches` — the
    final `SELECT`'s retention filter, `ORDER BY` and `LIMIT`.

Numeric values (`NUMERIC` in the source) are embedded as `ℚ`.  The query
pipeline is parametrised by the distance oracle `dist`; every pipeline
theorem below is proved for an arbitrary oracle, hence in particular for
the haversine instantiation.  `calculate_distance` itself is embedded
over `ℝ` further below, since it is built from `SIN`, `COS`, `SQRT` and
`ATAN2`.
-/

/-- Row of `public.profiles` (the columns the query reads).  User ids
(UUIDs in the source) are embedded as `Nat`. -/
structure Profile where
  user_id : Nat
  username : String
  display_name : String
  bio : String
  avatar_url : String
deriving DecidableEq

/-- Row of `public.user_locations`: `latitude` and `longitude` are
nullable in the schema (migration creating the table), `is_active` is
not. -/
structure LocationRow where
  user_id : Nat
  latitude : Option ℚ
  longitude : Option ℚ
  is_active : Bool
deriving DecidableEq

/-- Row of `public.user_interests` (the columns the query reads). -/
structure UserInterestRow where
  user_id : Nat
  interest_id : Nat
deriving DecidableEq

/-- The relational state read by `find_potential_matches`. -/
structure DB where
  profiles : List Profile
  user_locations : List LocationRow
  user_interests : List UserInterestRow
deriving DecidableEq

/-- Row type of the `potential_matches` CTE. -/
structure MatchRow where
  user_id : Nat
  username : String
  display_name : String
  bio : String
  avatar_url : String
  distance_km : Option ℚ
  shared_interests_count : Nat
deriving DecidableEq

/-- Row type returned by `find_potential_matches` (`RETURNS TABLE`). -/
structure MatchResult where
  user_id : Nat
  username : String
  display_name : String
  bio : String
  avatar_url : String
  distance_km : Option ℚ
  shared_interests_count : Nat
  compatibility_score : ℚ
deriving DecidableEq

/-- A call of `public.calculate_distance` as it appears inside the SQL
query: the plpgsql body propagates SQL `NULL` through its arithmetic, so
the call returns `NULL` as soon as any argument is `NULL`. -/
def sqlDistance (dist : ℚ → ℚ → ℚ → ℚ → ℚ) :
    Option ℚ → Option ℚ → Option ℚ → Option ℚ → Option ℚ
  | some lat1, some lon1, some lat2, some lon2 => some (dist lat1 lon1 lat2 lon2)
  | _, _, _, _ => none

/-- Rows of `public.user_locations` with the given `user_id` and
`is_active = true`. -/
def activeLocationRows (db : DB) (uid : Nat) : List LocationRow :=
  db.user_locations.filter (fun r => decide (r.user_id = uid) && r.is_active)

/-- The `user_location` CTE: `SELECT latitude, longitude FROM
public.user_locations WHERE user_id = user_id_param AND is_active = true
LIMIT 1` (the whole row is kept here; only `latitude`/`longitude` are
read later). -/
def requesterLocation (db : DB) (uid : Nat) : Option LocationRow :=
  (activeLocationRows db uid).head?

/-- The `user_interests_list` CTE: the requester's declared interest
ids. -/
def user_interests_list (db : DB) (uid : Nat) : List Nat :=
  (db.user_interests.filter (fun r => decide (r.user_id = uid))).map (fun r => r.interest_id)

/-- The grouped shared-interest subquery joined back on
`shared.user_id = p.user_id`, including the `COALESCE(shared_count, 0)`:
the number of join pairs between the candidate's `user_interests` rows
and the requester's interest-id list. -/
def shared_interests_count (db : DB) (uid cand : Nat) : Nat :=
  ((db.user_interests.filter (fun r => decide (r.user_id = cand) && decide (r.user_id ≠ uid))).map
    (fun r => (user_interests_list db uid).count r.interest_id)).sum

/-- The `LEFT JOIN public.user_locations ul ON ul.user_id = p.user_id
AND ul.is_active = true`: a profile with no active location row yields a
single all-NULL joined row. -/
def candidateLocationJoin (db : DB) (p : Profile) : List (Option LocationRow) :=
  match activeLocationRows db p.user_id with
  | [] => [none]
  | ls => ls.map some

/-- The `CASE WHEN ul.latitude IS NOT NULL AND ul.longitude IS NOT NULL
AND user_loc.latitude IS NOT NULL THEN calculate_distance(...) ELSE NULL
END` expression computing `distance_km`. -/
def caseDistance (dist : ℚ → ℚ → ℚ → ℚ → ℚ) (uloc : LocationRow)
    (ul : Option LocationRow) : Option ℚ :=
  match ul with
  | none => none
  | some u =>
    if u.latitude.isSome && u.longitude.isSome && uloc.latitude.isSome then
      sqlDistance dist uloc.latitude uloc.longitude u.latitude u.longitude
    else none

/-- The distance condition of the `WHERE` clause: `ul.latitude IS NULL
OR public.calculate_distance(user_loc.latitude, user_loc.longitude,
ul.latitude, ul.longitude) <= max_distance_km`.  A `NULL` comparison is
not `TRUE`, so a `NULL` distance with non-NULL `ul.latitude` drops the
row. -/
def distanceWhereOK (dist : ℚ → ℚ → ℚ → ℚ → ℚ) (max_d : ℚ)
    (uloc : LocationRow) (ul : Option LocationRow) : Bool :=
  match ul with
  | none => true
  | some u =>
    match u.latitude with
    | none => true
    | some _ =>
      match sqlDistance dist uloc.latitude uloc.longitude u.latitude u.longitude with
      | none => false
      | some d => decide (d ≤ max_d)

/-- The `potential_matches` CTE: `FROM public.profiles p CROSS JOIN
user_location user_loc LEFT JOIN ... WHERE p.user_id != user_id_param
AND (ul.latitude IS NULL OR calculate_distance(...) <= max_distance_km)`.
When the `user_location` CTE is empty the `CROSS JOIN` produces no rows
at all. -/
def potential_matches (dist : ℚ → ℚ → ℚ → ℚ → ℚ) (db : DB) (uid : Nat)
    (max_d : ℚ) : List MatchRow :=
  match requesterLocation db uid with
  | none => []
  | some uloc =>
    ((db.profiles.flatMap (fun p => (candidateLocationJoin db p).map (fun ul => (p, ul)))).filter
      (fun x => decide (x.1.user_id ≠ uid) && distanceWhereOK dist max_d uloc x.2)).map
      (fun x =>
        { user_id := x.1.user_id
          username := x.1.username
          display_name := x.1.display_name
          bio := x.1.bio
          avatar_url := x.1.avatar_url
          distance_km := caseDistance dist uloc x.2
          shared_interests_count := shared_interests_count db uid x.1.user_id })

/-- The `compatibility_score` `CASE` expression of the final `SELECT`. -/
def scoreRow (r : MatchRow) : MatchResult :=
  { user_id := r.user_id
    username := r.username
    display_name := r.display_name
    bio := r.bio
    avatar_url := r.avatar_url
    distance_km := r.distance_km
    shared_interests_count := r.shared_interests_count
    compatibility_score :=
      match r.distance_km with
      | none => (r.shared_interests_count : ℚ) * 10
      | some d => (r.shared_interests_count : ℚ) * 10 + 100 / (1 + d) }

/-- The retention filter of the final `SELECT`: `WHERE
pm.shared_interests_count > 0 OR pm.distance_km IS NOT NULL`. -/
def retainedMatches (dist : ℚ → ℚ → ℚ → ℚ → ℚ) (db : DB) (uid : Nat)
    (max_d : ℚ) : List MatchRow :=
  (potential_matches dist db uid max_d).filter
    (fun r => decide (0 < r.shared_interests_count) || r.distance_km.isSome)

/-- Comparison under `ORDER BY ... distance_km ASC NULLS LAST` at the
third sort level. -/
def distLE : Option ℚ → Option ℚ → Bool
  | some x, some y => decide (x ≤ y)
  | some _, none => true
  | none, some _ => false
  | none, none => true

/-- The full `ORDER BY compatibility_score DESC,
shared_interests_count DESC, distance_km ASC NULLS LAST` comparison:
`rowLE a b` holds when `a` may come (weakly) before `b`. -/
def rowLE (a b : MatchResult) : Bool :=
  if a.compatibility_score = b.compatibility_score then
    if a.shared_interests_count = b.shared_interests_count then
      distLE a.distance_km b.distance_km
    else decide (b.shared_interests_count < a.shared_interests_count)
  else decide (b.compatibility_score < a.compatibility_score)

/-- Insertion step of the sort realising the `ORDER BY`. -/
def insertRanked (a : MatchResult) : List MatchResult → List MatchResult
  | [] => [a]
  | b :: l => if rowLE a b then a :: b :: l else b :: insertRanked a l

/-- Sort realising the `ORDER BY` (insertion sort, kept structurally
recursive so that concrete runs reduce definitionally). -/
def sortRanked : List MatchResult → List MatchResult
  | [] => []
  | a :: l => insertRanked a (sortRanked l)

/-- The fully scored and fully ordered candidate list, before `LIMIT`. -/
def rankedMatches (dist : ℚ → ℚ → ℚ → ℚ → ℚ) (db : DB) (uid : Nat)
    (max_d : ℚ) : List MatchResult :=
  sortRanked ((retainedMatches dist db uid max_d).map scoreRow)

/-- The stored function `public.find_potential_matches(user_id_param,
max_distance_km, limit_results)`: the ranked list truncated by `LIMIT
limit_results`. -/
def find_potential_matches (dist : ℚ → ℚ → ℚ → ℚ → ℚ) (db : DB)
    (uid : Nat) (max_d : ℚ) (limit_results : Nat) : List MatchResult :=
  (rankedMatches dist db uid max_d).take limit_results

/-- Constant distance oracle used for concrete evaluations. -/
def dist3 : ℚ → ℚ → ℚ → ℚ → ℚ := fun _ _ _ _ => 3

/-- Example state: requester `0` and candidate `1` both have active
locations and share interest `7`. -/
def wdb : DB :=
  { profiles := [⟨0, "", "", "", ""⟩, ⟨1, "", "", "", ""⟩]
    user_locations := [⟨0, some 0, some 0, true⟩, ⟨1, some 1, some 1, true⟩]
    user_interests := [⟨0, 7⟩, ⟨1, 7⟩] }

/-- Output row produced by `wdb` under the constant oracle `dist3`:
distance `3`, one shared interest, score `1 * 10 + 100 / (1 + 3) = 35`. -/
def wRow : MatchResult := ⟨1, "", "", "", "", some 3, 1, 35⟩

/-- State exercising the requester-without-active-location behaviour:
requester `0` has a profile and a shared interest with candidate `1`,
who has an active location, but requester `0` has no `user_locations`
row at all. -/
def db1 : DB :=
  { profiles := [⟨0, "", "", "", ""⟩, ⟨1, "", "", "", ""⟩]
    user_locations := [⟨1, some 10, some 20, true⟩]
    user_interests := [⟨0, 7⟩, ⟨1, 7⟩] }

/-- State in which the requester id `0` has no `profiles` row but does
have an active location and a declared interest shared with candidate
`1` (who has no location row). -/
def db7 : DB :=
  { profiles := [⟨1, "", "", "", ""⟩]
    user_locations := [⟨0, some 0, some 0, true⟩]
    user_interests := [⟨0, 7⟩, ⟨1, 7⟩] }

/-- State with a located requester `0` and an unlocated candidate `1`
sharing one interest, used to evaluate calls with out-of-contract
arguments. -/
def db8 : DB :=
  { profiles := [⟨0, "", "", "", ""⟩, ⟨1, "", "", "", ""⟩]
    user_locations := [⟨0, some 0, some 0, true⟩]
    user_interests := [⟨0, 7⟩, ⟨1, 7⟩] }

/-- Propositional reading of the `ORDER BY` comparison: `a` may be
listed no later than `b` when `a` has strictly greater score, or equal
score and strictly more shared interests, or equal score and equal
shared-interest count and `distance_km` no greater under nulls-last
semantics. -/
def rankPrecedes (a b : MatchResult) : Prop :=
  b.compatibility_score < a.compatibility_score ∨
    (a.compatibility_score = b.compatibility_score ∧
      (b.shared_interests_count < a.shared_interests_count ∨
        (a.shared_interests_count = b.shared_interests_count ∧
          distLE a.distance_km b.distance_km = true)))

/-- The `RADIANS` conversion used by `calculate_distance`. -/
noncomputable def radians (x : ℝ) : ℝ := x * Real.pi / 180

/-- The C-library `ATAN2(y, x)` function called by the source. -/
noncomputable def atan2 (y x : ℝ) : ℝ :=
  if 0 < x then Real.arctan (y / x)
  else if x < 0 ∧ 0 ≤ y then Real.arctan (y / x) + Real.pi
  else if x < 0 ∧ y < 0 then Real.arctan (y / x) - Real.pi
  else if x = 0 ∧ 0 < y then Real.pi / 2
  else if x = 0 ∧ y < 0 then -(Real.pi / 2)
  else 0

/-- The local variable `a` of `public.calculate_distance`:
`SIN(dlat/2) * SIN(dlat/2) + COS(RADIANS(lat1)) * COS(RADIANS(lat2)) *
SIN(dlon/2) * SIN(dlon/2)` with `dlat := RADIANS(lat2 - lat1)` and
`dlon := RADIANS(lon2 - lon1)`. -/
noncomputable def haversine_term (lat1 lon1 lat2 lon2 : ℝ) : ℝ :=
  Real.sin (radians (lat2 - lat1) / 2) * Real.sin (radians (lat2 - lat1) / 2) +
    Real.cos (radians lat1) * Real.cos (radians lat2) *
      Real.sin (radians (lon2 - lon1) / 2) * Real.sin (radians (lon2 - lon1) / 2)

/-- The stored function `public.calculate_distance`, embedded over `ℝ`:
`c := 2 * ATAN2(SQRT(a), SQRT(1 - a))` and the result is
`earth_radius * c` with `earth_radius = 6371`. -/
noncomputable def calculate_distance (lat1 lon1 lat2 lon2 : ℝ) : ℝ :=
  6371 * (2 * atan2 (Real.sqrt (haversine_term lat1 lon1 lat2 lon2))
    (Real.sqrt (1 - haversine_term lat1 lon1 lat2 lon2)))

/-! ### Helper lemmas about the `ORDER BY` comparison and the sort -/

theorem distLE_total (a b : Option ℚ) : distLE a b = true ∨ distLE b a = true := by
  cases a <;> cases b <;> simp [distLE]
  exact le_total _ _

theorem distLE_trans {a b c : Option ℚ} (h1 : distLE a b = true) (h2 : distLE b c = true) :
    distLE a c = true := by
  cases a <;> cases b <;> cases c <;> simp_all [distLE]
  exact le_trans h1 h2

theorem rankPrecedes_total (a b : MatchResult) : rankPrecedes a b ∨ rankPrecedes b a := by
  rcases lt_trichotomy a.compatibility_score b.compatibility_score with h | h | h
  · right; left; exact h
  · rcases lt_trichotomy a.shared_interests_count b.shared_interests_count with g | g | g
    · right; right; exact ⟨h.symm, Or.inl g⟩
    · rcases distLE_total a.distance_km b.distance_km with d | d
      · left; right; exact ⟨h, Or.inr ⟨g, d⟩⟩
      · right; right; exact ⟨h.symm, Or.inr ⟨g.symm, d⟩⟩
    · left; right; exact ⟨h, Or.inl g⟩
  · left; left; exact h

theorem rankPrecedes_trans {a b c : MatchResult} (h1 : rankPrecedes a b)
    (h2 : rankPrecedes b c) : rankPrecedes a c := by
  rcases h1 with h1 | ⟨e1, h1⟩ <;> rcases h2 with h2 | ⟨e2, h2⟩
  · left; linarith
  · left; linarith [e2.ge, e2.le]
  · left; linarith [e1.ge, e1.le]
  · rcases h1 with g1 | ⟨f1, d1⟩ <;> rcases h2 with g2 | ⟨f2, d2⟩
    · exact Or.inr ⟨e1.trans e2, Or.inl (by omega)⟩
    · exact Or.inr ⟨e1.trans e2, Or.inl (by omega)⟩
    · exact Or.inr ⟨e1.trans e2, Or.inl (by omega)⟩
    · exact Or.inr ⟨e1.trans e2, Or.inr ⟨f1.trans f2, distLE_trans d1 d2⟩⟩

theorem rowLE_iff {a b : MatchResult} : rowLE a b = true ↔ rankPrecedes a b := by
  unfold rowLE rankPrecedes
  by_cases h : a.compatibility_score = b.compatibility_score
  · by_cases h2 : a.shared_interests_count = b.shared_interests_count <;>
      simp [h, h2, lt_irrefl]
  · have : ¬ b.compatibility_score = a.compatibility_score := fun e => h e.symm
    simp [h]

theorem mem_insertRanked {x a : MatchResult} {l : List MatchResult} :
    x ∈ insertRanked a l ↔ x = a ∨ x ∈ l := by
  induction l with
  | nil => simp [insertRanked]
  | cons b l ih =>
    rw [insertRanked]
    split
    · simp [List.mem_cons]
    · simp only [List.mem_cons, ih]
      tauto

theorem mem_sortRanked {x : MatchResult} {l : List MatchResult} :
    x ∈ sortRanked l ↔ x ∈ l := by
  induction l with
  | nil => simp [sortRanked]
  | cons a l ih =>
    rw [sortRanked]
    simp [mem_insertRanked, ih]

theorem pairwise_insertRanked {a : MatchResult} {l : List MatchResult}
    (hl : l.Pairwise rankPrecedes) : (insertRanked a l).Pairwise rankPrecedes := by
  induction l with
  | nil => simp [insertRanked]
  | cons b l ih =>
    rw [insertRanked]
    rcases List.pairwise_cons.mp hl with ⟨hb, hl'⟩
    split
    case isTrue hab =>
      refine List.pairwise_cons.mpr ⟨?_, hl⟩
      intro x hx
      rcases List.mem_cons.mp hx with rfl | hx
      · exact rowLE_iff.mp hab
      · exact rankPrecedes_trans (rowLE_iff.mp hab) (hb x hx)
    case isFalse hab =>
      have hba : rankPrecedes b a := by
        rcases rankPrecedes_total a b with h | h
        · exact absurd (rowLE_iff.mpr h) hab
        · exact h
      refine List.pairwise_cons.mpr ⟨?_, ih hl'⟩
      intro x hx
      rcases mem_insertRanked.mp hx with rfl | hx
      · exact hba
      · exact hb x hx

theorem pairwise_sortRanked (l : List MatchResult) :
    (sortRanked l).Pairwise rankPrecedes := by
  induction l with
  | nil => simp [sortRanked]
  | cons a l ih =>
    rw [sortRanked]
    exact pairwise_insertRanked ih

/-! ### Helper lemmas about the query pipeline -/

theorem filter_flatMap_of_dropped {α β : Type} (q : α → Bool) (f : α → List β)
    (pred : β → Bool) (h : ∀ p, q p = false → (f p).filter pred = []) :
    ∀ l : List α, ((l.filter q).flatMap f).filter pred = (l.flatMap f).filter pred := by
  intro l
  induction l with
  | nil => rfl
  | cons p l ih =>
    by_cases hq : q p = true
    · rw [List.filter_cons, if_pos hq, List.flatMap_cons, List.flatMap_cons,
        List.filter_append, List.filter_append, ih]
    · have hq' : q p = false := by simpa using hq
      rw [List.filter_cons, if_neg hq, List.flatMap_cons, List.filter_append,
        h p hq', List.nil_append, ih]

theorem find_wdb_eval : find_potential_matches dist3 wdb 0 50 20 = [wRow] := by
  simp [find_potential_matches, rankedMatches, retainedMatches, potential_matches,
    requesterLocation, activeLocationRows, user_interests_list, shared_interests_count,
    candidateLocationJoin, caseDistance, distanceWhereOK, sqlDistance, scoreRow,
    sortRanked, insertRanked, rowLE, distLE, dist3, wdb, wRow, List.filter_cons]
  norm_num

theorem wRow_mem : wRow ∈ find_potential_matches dist3 wdb 0 50 20 := by
  rw [find_wdb_eval]
  exact List.mem_singleton_self wRow

theorem mem_find_shape {dist : ℚ → ℚ → ℚ → ℚ → ℚ} {db : DB} {uid : Nat} {max_d : ℚ}
    {lim : Nat} {row : MatchResult} (h : row ∈ find_potential_matches dist db uid max_d lim) :
    ∃ r ∈ retainedMatches dist db uid max_d, row = scoreRow r := by
  rw [find_potential_matches] at h
  have h2 : row ∈ rankedMatches dist db uid max_d := List.take_subset _ _ h
  rw [rankedMatches] at h2
  rcases List.mem_map.mp (mem_sortRanked.mp h2) with ⟨r, hr, hrow⟩
  exact ⟨r, hr, hrow.symm⟩

theorem retained_sub_potential {dist : ℚ → ℚ → ℚ → ℚ → ℚ} {db : DB} {uid : Nat}
    {max_d : ℚ} {r : MatchRow} (h : r ∈ retainedMatches dist db uid max_d) :
    r ∈ potential_matches dist db uid max_d := by
  rw [retainedMatches] at h
  exact (List.mem_filter.mp h).1

theorem potential_matches_distance_shape {dist : ℚ → ℚ → ℚ → ℚ → ℚ} {db : DB}
    {uid : Nat} {max_d : ℚ} {r : MatchRow} (h : r ∈ potential_matches dist db uid max_d) :
    r.distance_km = none ∨ ∃ a b c e, r.distance_km = some (dist a b c e) := by
  unfold potential_matches at h
  cases hq : requesterLocation db uid with
  | none => rw [hq] at h; simp at h
  | some uloc =>
    rw [hq] at h
    rcases List.mem_map.mp h with ⟨x, _, rfl⟩
    dsimp only
    unfold caseDistance
    cases x.2 with
    | none => exact Or.inl rfl
    | some u =>
      dsimp only
      split
      · obtain ⟨u1, la1, lo1, a1⟩ := uloc
        obtain ⟨u2, la2, lo2, a2⟩ := u
        dsimp only at *
        unfold sqlDistance
        cases la1 <;> cases lo1 <;> cases la2 <;> cases lo2 <;>
          first
            | exact Or.inl rfl
            | exact Or.inr ⟨_, _, _, _, rfl⟩
      · exact Or.inl rfl

/-! ### Helper lemmas about the geo-distance function -/

theorem haversine_term_symm (lat1 lon1 lat2 lon2 : ℝ) :
    haversine_term lat1 lon1 lat2 lon2 = haversine_term lat2 lon2 lat1 lon1 := by
  have h1 : radians (lat2 - lat1) / 2 = -(radians (lat1 - lat2) / 2) := by
    unfold radians; ring
  have h2 : radians (lon2 - lon1) / 2 = -(radians (lon1 - lon2) / 2) := by
    unfold radians; ring
  unfold haversine_term
  simp only [h1, h2, Real.sin_neg]
  ring

theorem atan2_nonneg {y x : ℝ} (hy : 0 ≤ y) : 0 ≤ atan2 y x := by
  unfold atan2
  split_ifs with h1 h2 h3 h4 h5
  · have h := Real.arctan_strictMono.monotone (div_nonneg hy h1.le)
    rwa [Real.arctan_zero] at h
  · have ha := Real.neg_pi_div_two_lt_arctan (y / x)
    have hpi := Real.pi_pos
    linarith
  · exact absurd hy (not_le.mpr h3.2)
  · have hpi := Real.pi_pos
    linarith
  · exact absurd hy (not_le.mpr h5.2)
  · exact le_refl 0

theorem calculate_distance_nonneg (lat1 lon1 lat2 lon2 : ℝ) :
    0 ≤ calculate_distance lat1 lon1 lat2 lon2 := by
  unfold calculate_distance
  have h := atan2_nonneg (y := Real.sqrt (haversine_term lat1 lon1 lat2 lon2))
    (x := Real.sqrt (1 - haversine_term lat1 lon1 lat2 lon2))
    (Real.sqrt_nonneg (haversine_term lat1 lon1 lat2 lon2))
  linarith

/-! ### Claim theorems -/

/-- Claim C2: every row returned by `find_potential_matches` has
`compatibility_score` equal to `shared_interests_count * 10` when
`distance_km` is null, and to
`shared_interests_count * 10 + 100 / (1 + distance_km)` when
`distance_km` is known. -/
theorem C2_score_formula (dist : ℚ → ℚ → ℚ → ℚ → ℚ) (db : DB) (uid : Nat) (max_d : ℚ)
    (lim : Nat) (row : MatchResult) (h : row ∈ find_potential_matches dist db uid max_d lim) :
    row.compatibility_score =
      match row.distance_km with
      | none => (row.shared_interests_count : ℚ) * 10
      | some d => (row.shared_interests_count : ℚ) * 10 + 100 / (1 + d) := by
  rcases mem_find_shape h with ⟨r, _, rfl⟩
  cases hd : r.distance_km <;> simp [scoreRow, hd]

/-- Witness for C2: the concrete run on `wdb` returns `wRow`, whose
score `35` satisfies the formula at distance `3` and one shared
interest. -/
theorem C2_witness :
    wRow ∈ find_potential_matches dist3 wdb 0 50 20 ∧
      wRow.compatibility_score =
        match wRow.distance_km with
        | none => (wRow.shared_interests_count : ℚ) * 10
        | some d => (wRow.shared_interests_count : ℚ) * 10 + 100 / (1 + d) :=
  ⟨wRow_mem, C2_score_formula dist3 wdb 0 50 20 wRow wRow_mem⟩

/-- Claim C3: the returned list is ordered by `compatibility_score`
descending, then `shared_interests_count` descending, then
`distance_km` ascending with null distances last (`rankPrecedes`). -/
theorem C3_ordering (dist : ℚ → ℚ → ℚ → ℚ → ℚ) (db : DB) (uid : Nat) (max_d : ℚ)
    (lim : Nat) : (find_potential_matches dist db uid max_d lim).Pairwise rankPrecedes := by
  rw [find_potential_matches, rankedMatches]
  exact (pairwise_sortRanked _).sublist (List.take_sublist _ _)

/-- Claim C5: a row of the final result always has a positive shared
count or a known distance, and a `potential_matches` row is retained by
the final `WHERE` exactly when `shared_interests_count > 0` or
`distance_km` is not null. -/
theorem C5_retention_rule :
    (∀ (dist : ℚ → ℚ → ℚ → ℚ → ℚ) (db : DB) (uid : Nat) (max_d : ℚ) (lim : Nat)
        (row : MatchResult), row ∈ find_potential_matches dist db uid max_d lim →
        0 < row.shared_interests_count ∨ row.distance_km ≠ none) ∧
      ∀ (dist : ℚ → ℚ → ℚ → ℚ → ℚ) (db : DB) (uid : Nat) (max_d : ℚ) (r : MatchRow),
        r ∈ potential_matches dist db uid max_d →
        (r ∈ retainedMatches dist db uid max_d ↔
          (0 < r.shared_interests_count ∨ r.distance_km ≠ none)) := by
  constructor
  · intro dist db uid max_d lim row h
    rcases mem_find_shape h with ⟨r, hr, rfl⟩
    rw [retainedMatches] at hr
    have hp := (List.mem_filter.mp hr).2
    simp only [Bool.or_eq_true, decide_eq_true_eq] at hp
    rcases hp with hp | hp
    · exact Or.inl hp
    · exact Or.inr (Option.isSome_iff_ne_none.mp hp)
  · intro dist db uid max_d r hp
    rw [retainedMatches, List.mem_filter]
    simp [hp, Option.isSome_iff_ne_none]

/-- Witness for C5: the concrete returned row `wRow` satisfies the
retention disjunction. -/
theorem C5_witness : 0 < wRow.shared_interests_count ∨ wRow.distance_km ≠ none :=
  C5_retention_rule.1 dist3 wdb 0 50 20 wRow wRow_mem

/-- Claim C6: the function returns exactly the `limit_results`-prefix of
the fully scored and fully sorted candidate list, hence at most
`limit_results` rows. -/
theorem C6_limit_after_sort (dist : ℚ → ℚ → ℚ → ℚ → ℚ) (db : DB) (uid : Nat)
    (max_d : ℚ) (lim : Nat) :
    find_potential_matches dist db uid max_d lim = (rankedMatches dist db uid max_d).take lim ∧
      (find_potential_matches dist db uid max_d lim).length ≤ lim :=
  ⟨rfl, by rw [find_potential_matches, List.length_take]; exact min_le_left _ _⟩

/-- Claim C9: `calculate_distance` is symmetric in its two coordinate
pairs. -/
theorem C9_calculate_distance_symm (lat1 lon1 lat2 lon2 : ℝ) :
    calculate_distance lat1 lon1 lat2 lon2 = calculate_distance lat2 lon2 lat1 lon1 := by
  unfold calculate_distance
  rw [haversine_term_symm lat1 lon1 lat2 lon2]

/-- Claim C10: with a nonnegative distance oracle (as the haversine
function is, see `calculate_distance_nonneg`), every returned row has a
strictly positive `compatibility_score`. -/
theorem C10_positive_score (dist : ℚ → ℚ → ℚ → ℚ → ℚ)
    (hd : ∀ a b c e : ℚ, 0 ≤ dist a b c e) (db : DB) (uid : Nat) (max_d : ℚ) (lim : Nat)
    (row : MatchResult) (h : row ∈ find_potential_matches dist db uid max_d lim) :
    0 < row.compatibility_score := by
  rcases mem_find_shape h with ⟨r, hr, rfl⟩
  have hret := (List.mem_filter.mp (by rwa [retainedMatches] at hr)).2
  have hpm := retained_sub_potential hr
  simp only [Bool.or_eq_true, decide_eq_true_eq] at hret
  rcases potential_matches_distance_shape hpm with hdk | ⟨a, b, c, e, hdk⟩
  · have hsh : 0 < r.shared_interests_count := by
      rcases hret with hp | hp
      · exact hp
      · rw [hdk] at hp; simp at hp
    show 0 < (scoreRow r).compatibility_score
    simp only [scoreRow, hdk]
    have hq : (0 : ℚ) < (r.shared_interests_count : ℚ) := by exact_mod_cast hsh
    linarith
  · show 0 < (scoreRow r).compatibility_score
    simp only [scoreRow, hdk]
    have h0 : 0 ≤ dist a b c e := hd a b c e
    have hpos : 0 < 100 / (1 + dist a b c e) := by
      apply div_pos (by norm_num)
      linarith
    have hnn : (0 : ℚ) ≤ (r.shared_interests_count : ℚ) * 10 := by positivity
    linarith

/-- Witness for C10: the concrete returned row `wRow` has a positive
score. -/
theorem C10_witness : 0 < wRow.compatibility_score :=
  C10_positive_score dist3 (fun a b c e => by norm_num [dist3]) wdb 0 50 20 wRow wRow_mem

/-- Claim C1 evaluation at the failing state `db1`: requester `0` has no
active location row, candidate `1` has an active location and shares one
interest, yet the function returns the empty list (the `CROSS JOIN` with
the empty `user_location` CTE drops every candidate), instead of the
interest-only row with score `10` that the specification describes. -/
theorem C1_no_requester_location_empty_result :
    requesterLocation db1 0 = none ∧ activeLocationRows db1 1 ≠ [] ∧
      shared_interests_count db1 0 1 = 1 ∧
      find_potential_matches dist3 db1 0 50 20 = [] := by decide

/-- Claim C4 evaluation at `db1`: candidate `1` is excluded although the
requester has no known active location, so the exclusion is not of the
"both located and too far" form the claim allows. -/
theorem C4_excluded_without_both_locations :
    requesterLocation db1 0 = none ∧ activeLocationRows db1 1 ≠ [] ∧
      find_potential_matches dist3 db1 0 10 5 = [] := by decide

/-- Counterexample to claim C7: in `db7` the requester id `0` has no
`profiles` row, yet the function returns a non-empty list, because the
query never consults the requester's profile (it reads only the
requester's locations and interests). -/
theorem C7_counterexample :
    db7.profiles.all (fun p => decide (p.user_id ≠ 0)) = true ∧
      find_potential_matches dist3 db7 0 50 20 ≠ [] := by decide

theorem potential_matches_drop_requester_profile (dist : ℚ → ℚ → ℚ → ℚ → ℚ) (db : DB)
    (uid : Nat) (max_d : ℚ) :
    potential_matches dist
      { profiles := db.profiles.filter (fun p => decide (p.user_id ≠ uid)),
        user_locations := db.user_locations, user_interests := db.user_interests } uid max_d
      = potential_matches dist db uid max_d := by
  have h1 : candidateLocationJoin
      { profiles := db.profiles.filter (fun p => decide (p.user_id ≠ uid)),
        user_locations := db.user_locations, user_interests := db.user_interests }
      = candidateLocationJoin db := rfl
  have h2 : shared_interests_count
      { profiles := db.profiles.filter (fun p => decide (p.user_id ≠ uid)),
        user_locations := db.user_locations, user_interests := db.user_interests }
      = shared_interests_count db := rfl
  have h3 : requesterLocation
      { profiles := db.profiles.filter (fun p => decide (p.user_id ≠ uid)),
        user_locations := db.user_locations, user_interests := db.user_interests }
      = requesterLocation db := rfl
  unfold potential_matches
  rw [h1, h2, h3]
  dsimp only
  cases hloc : requesterLocation db uid with
  | none => rfl
  | some uloc =>
    have hdrop : ∀ p : Profile, (fun p : Profile => decide (p.user_id ≠ uid)) p = false →
        ((fun p : Profile => (candidateLocationJoin db p).map (fun ul => (p, ul))) p).filter
          (fun x : Profile × Option LocationRow =>
            decide (x.1.user_id ≠ uid) && distanceWhereOK dist max_d uloc x.2) = [] := by
      intro p hp
      have hpu : p.user_id = uid := by simpa using hp
      dsimp only
      rw [List.filter_map]
      rw [List.filter_eq_nil_iff.mpr ?_]
      · exact List.map_nil
      · intro ul _
        simp [Function.comp, hpu]
    simp only [filter_flatMap_of_dropped _ _ _ hdrop db.profiles]

/-- Claim C7 amended: `find_potential_matches` never consults the
requester's own `profiles` row (removing it changes nothing), and a
requester with no active location row receives the empty list — so a
requester absent from the profile store behaves like any other id with
the same locations and interests, without error. -/
theorem C7_profile_row_not_consulted :
    (∀ (dist : ℚ → ℚ → ℚ → ℚ → ℚ) (db : DB) (uid : Nat) (max_d : ℚ) (lim : Nat),
        find_potential_matches dist
          { profiles := db.profiles.filter (fun p => decide (p.user_id ≠ uid)),
            user_locations := db.user_locations, user_interests := db.user_interests }
          uid max_d lim
          = find_potential_matches dist db uid max_d lim) ∧
      ∀ (dist : ℚ → ℚ → ℚ → ℚ → ℚ) (db : DB) (uid : Nat) (max_d : ℚ) (lim : Nat),
        requesterLocation db uid = none → find_potential_matches dist db uid max_d lim = [] := by
  constructor
  · intro dist db uid max_d lim
    rw [find_potential_matches, find_potential_matches, rankedMatches, rankedMatches,
      retainedMatches, retainedMatches, potential_matches_drop_requester_profile]
  · intro dist db uid max_d lim h
    unfold find_potential_matches rankedMatches retainedMatches potential_matches
    rw [h]
    simp [sortRanked]

/-- Witness for the amended C7: applied to `db1`, where requester `0`
has no active location row, the result is empty. -/
theorem C7_witness : find_potential_matches dist3 db1 0 25 7 = [] :=
  C7_profile_row_not_consulted.2 dist3 db1 0 25 7 (by decide)

/-- Counterexample to claim C8: calling with `max_distance_km = -5`
(an invalid argument per the claim) is not rejected: the query still
runs and returns a row for the unlocated candidate `1`. -/
theorem C8_counterexample :
    ((-5 : ℚ) ≤ 0) ∧ find_potential_matches dist3 db8 0 (-5) 20 ≠ [] := by
  constructor
  · norm_num
  · decide

/-- Claim C8 amended: the function performs no argument validation —
`limit_results = 0` simply yields the empty list through `LIMIT`, and a
non-positive `max_distance_km` is used as an ordinary filter bound, with
unlocated shared-interest candidates still returned (score `10` here). -/
theorem C8_no_argument_validation :
    (∀ (dist : ℚ → ℚ → ℚ → ℚ → ℚ) (db : DB) (uid : Nat) (max_d : ℚ),
        find_potential_matches dist db uid max_d 0 = []) ∧
      find_potential_matches dist3 db8 0 (-5) 20 = [⟨1, "", "", "", "", none, 1, 10⟩] := by
  constructor
  · intro dist db uid max_d
    rfl
  · simp [find_potential_matches, rankedMatches, retainedMatches, potential_matches,
      requesterLocation, activeLocationRows, user_interests_list, shared_interests_count,
      candidateLocationJoin, caseDistance, distanceWhereOK, sqlDistance, scoreRow,
      sortRanked, insertRanked, rowLE, distLE, dist3, db8, List.filter_cons]
